import Mathlib

/-!
Verification of the timeline placement and interaction engine of a
multi-track media timeline editor, against its natural-language
specification.  The definitions below are shallow embeddings of the
JavaScript source in `src/components/Timeline/timeline-grid.jsx` (and the
bundled `TimelineRuler` / `videoMetadata` modules): pure functions become
Lean functions, callback-driven asynchronous code becomes a function from
the possible terminating events to the resolved value, and JS numbers are
modelled as rationals (every numeric computation the claims touch is exact
in IEEE doubles, so ℚ is a faithful model on the inputs considered).
-/

/-! ## Track Compatibility Rules

Embedding of `areTypesCompatible` (timeline-grid.jsx lines 479–495).
The JS takes the two overlay-kind strings and returns a boolean; the chain
of `if` statements is reproduced branch for branch. -/

def areTypesCompatible (type1 type2 : String) : Bool :=
  if type1 == "text" || type2 == "text" then type1 == "text" && type2 == "text"
  else if type1 == "animation" || type2 == "animation" then true
  else
    let v1 := type1 == "video"
    let v2 := type2 == "video"
    let a1 := type1 == "audio"
    let a2 := type2 == "audio"
    let i1 := type1 == "imageUrl" || type1 == "image"
    let i2 := type2 == "imageUrl" || type2 == "image"
    if v1 && (a2 || i2) then false
    else if v2 && (a1 || i1) then false
    else if a1 && (v2 || i2) then false
    else if a2 && (v1 || i1) then false
    else if i1 && (v2 || a2) then false
    else if i2 && (v1 || a1) then false
    else i1 && i2

/-- The overlay-kind strings the spec's §4.1 policy ranges over; `image` and
`imageUrl` are the two spellings of the image family that appear in the
source. -/
def allKinds : List String := ["video", "audio", "image", "imageUrl", "text", "animation"]

/-- The kinds other than `animation`. -/
def nonAnimKinds : List String := ["video", "audio", "image", "imageUrl", "text"]

/-- Image-family test, as in the source's `imageTypes.includes` check. -/
def imageFamily (k : String) : Bool := k == "imageUrl" || k == "image"

/-! ## File-drag kind inference

Embedding of the kind inference inside `handleGlobalDragOver`
(timeline-grid.jsx lines 427–433): the dragged item's MIME type (absent
when there is no item, hence `Option String`) defaults to `imageUrl`
unless it starts with `audio/` or `video/`. -/

/-- JS `s.startsWith(p)`: `p`'s characters are a prefix of `s`'s.  (Lean's
own `String.startsWith` agrees, but this character-list form is kept
because it evaluates inside the kernel.) -/
def jsStartsWith (s p : String) : Bool := p.data.isPrefixOf s.data

def inferFileDragKind (fileType : Option String) : String :=
  match fileType with
  | some t =>
      if jsStartsWith t "audio/" then "audio"
      else if jsStartsWith t "video/" then "video"
      else "imageUrl"
  | none => "imageUrl"

/-- Embedding of the incompatibility flag computed in `handleGlobalDragOver`
(lines 436–441): `rowType` is the kind of the first overlay on the hovered
row (`none` when the row is empty, and a JS empty string is also falsy, so
it too yields `false`). -/
def fileDragIncompatible (rowType : Option String) (fileType : Option String) : Bool :=
  match rowType with
  | none => false
  | some rt =>
      if rt == "" then false
      else !areTypesCompatible rt (inferFileDragKind fileType)

/-! ## Ruler Marker Generator

Embedding of the `rulerMarkers` computation in `TimelineRuler`
(timeline-grid.jsx bundle, lines 644–735).  JS numbers are modelled as ℚ;
the JS `%` operator on non-negative operands is `jsMod` below, and the
`for` loops stepping by a fixed positive increment are modelled by
enumerating the step count.  All quantities reached by the claims are
integer-valued, where double arithmetic is exact, so ℚ is faithful. -/

/-- JS `a % b` for the non-negative operands used by the ruler (JS
truncates the quotient; for non-negative operands truncation and floor
agree). -/
def jsMod (a b : ℚ) : ℚ := a - b * (Rat.floor (a / b) : ℚ)

structure RulerMarker where
  time : ℚ
  timeMs : ℚ
  position : ℚ
  frame : Option ℕ
  isMajor : Bool
  isMinor : Bool
  isFrame : Bool
deriving DecidableEq, Repr

/-- Interval selection of the ruler (lines 652–688): given the effective
fps and the zoom scale, returns `(intervalSeconds, showFrames,
frameInterval)` exactly as the chain of `if` branches does. -/
def rulerInterval (fps : ℕ) (scale : ℚ) : ℚ × Bool × ℕ :=
  let frameDuration : ℚ := 1 / fps
  if scale > 30 then (frameDuration, true, 1)
  else if scale > 20 then (max (frameDuration * 5) (1/10), true, 5)
  else if scale > 15 then (max (frameDuration * 10) (1/5), true, 10)
  else if scale > 10 then (1, false, 1)
  else if scale > 5 then (5, false, 1)
  else if scale > 2 then (10, false, 1)
  else if scale > 1 then (30, false, 1)
  else (60, false, 1)

/-- Embedding of the `rulerMarkers` `useMemo` body: `maxTime` is
`store.maxTime` in ms (the JS returns `[]` when it is falsy), `fps0` is
`store.fps` (`|| 30` applied below), `scale` the zoom factor. -/
def rulerMarkers (maxTime : ℚ) (fps0 : ℕ) (scale : ℚ) : List RulerMarker :=
  if maxTime = 0 then []
  else
    let maxTimeSeconds := maxTime / 1000
    let fps := if fps0 = 0 then 30 else fps0
    let frameDuration : ℚ := 1 / fps
    let intervalSeconds := (rulerInterval fps scale).1
    let showFrames := (rulerInterval fps scale).2.1
    let frameInterval := (rulerInterval fps scale).2.2
    if showFrames then
      let maxFramesInt : ℤ := Rat.ceil (maxTimeSeconds * fps)
      let steps : ℕ := if maxFramesInt < 0 then 0 else maxFramesInt.toNat / frameInterval + 1
      (List.range steps).map (fun k =>
        let frame := k * frameInterval
        let timeSeconds := (frame : ℚ) * frameDuration
        let timeMs := timeSeconds * 1000
        let position := (timeMs / maxTime) * 100
        { time := timeSeconds
          timeMs := timeMs
          position := position
          frame := some frame
          isMajor := frame % fps == 0
          isMinor := jsMod (frame : ℚ) ((fps : ℚ) / 3) == 0
          isFrame := true })
    else
      let steps : ℕ :=
        if maxTimeSeconds < 0 then 0
        else (Rat.floor (maxTimeSeconds / intervalSeconds)).toNat + 1
      (List.range steps).map (fun k =>
        let time := (k : ℚ) * intervalSeconds
        let timeMs := time * 1000
        let position := (timeMs / maxTime) * 100
        { time := time
          timeMs := timeMs
          position := position
          frame := none
          isMajor := jsMod time (intervalSeconds * 5) == 0
          isMinor := !(jsMod time (intervalSeconds * 5) == 0)
          isFrame := false })

/-! ## Media Metadata Probe

Embedding of `getVideoMetadataFromUrl` (videoMetadata utility bundled in
timeline-grid.jsx, lines 899–1084).  The JS wraps callback-driven code in
a `Promise`; the embedding maps each terminating path of that promise —
the guard on a missing url, the timeout, the media `error` event, the
synchronous exception while setting `video.src`, and the successful
`loadedmetadata` path — to the value the path passes to `resolve`.  The
codomain is `Except Unit ProbeResult` so that "the promise rejects" is
representable (`.error`); the source never calls `reject`, so every
branch below is `.ok`. -/

structure ProbeResult where
  durationMs : ℚ
  hasAudio : Bool
deriving DecidableEq, Repr

/-- The observable state of the probe's hidden `<video>` element at the
moment `detectAudioAndResolve` runs: `duration` is `video.duration` with
the JS falsy values (`NaN`, `undefined`, `0`) modelled as `0`;
`webkitAudioDecodedByteCount` is `none` when the property is not a number
(the `typeof` check); `audioTracksLength` is `none` when `audioTracks` is
undefined. -/
structure VideoElemState where
  duration : ℚ
  mozHasAudio : Bool
  webkitAudioDecodedByteCount : Option ℤ
  audioTracksLength : Option ℕ
  readyState : ℕ
deriving DecidableEq, Repr

/-- Embedding of `detectAudioAndResolve` (lines 936–995): gathers the
independent audio-presence signals, then applies the positive-bias
fallback `if (!detectedAudio && durationSec > 0) detectedAudio = true`,
and resolves with the duration (in ms, defaulting to 10000 when no valid
duration) and the detection verdict. -/
def detectAudioAndResolve (v : VideoElemState) : ProbeResult :=
  let durationSec := v.duration
  let mozHasAudio := v.mozHasAudio
  let webkitHasAudio :=
    match v.webkitAudioDecodedByteCount with
    | some n => decide (n > 0)
    | none => false
  let hasAudioTracks :=
    match v.audioTracksLength with
    | some n => decide (n > 0)
    | none => false
  let audioContextCheck :=
    if v.readyState ≥ 2 then hasAudioTracks || mozHasAudio || webkitHasAudio
    else false
  let detectedAudio := mozHasAudio || webkitHasAudio || hasAudioTracks || audioContextCheck
  let detectedAudio := if !detectedAudio && decide (durationSec > 0) then true else detectedAudio
  { durationMs := if durationSec > 0 then durationSec * 1000 else 10000
    hasAudio := detectedAudio }

/-- The terminating events of the probe's promise. -/
inductive ProbeEvent where
  | noUrl
  | timeout
  | errorEvent
  | srcException
  | metadataLoaded (v : VideoElemState)
deriving DecidableEq, Repr

/-- The paths of the probe classified as failures by the spec: missing
url, timeout expiry, media error event, synchronous exception. -/
def ProbeEvent.isFailure : ProbeEvent → Bool
  | .noUrl => true
  | .timeout => true
  | .errorEvent => true
  | .srcException => true
  | .metadataLoaded _ => false

/-- Embedding of `getVideoMetadataFromUrl`: the value the promise settles
with on each terminating path.  Every path calls `resolve` in the source,
so every branch is `.ok`; the four failure paths all resolve with the
conservative default `{durationMs: 10000, hasAudio: false}`. -/
def getVideoMetadataFromUrl : ProbeEvent → Except Unit ProbeResult
  | .noUrl => .ok { durationMs := 10000, hasAudio := false }
  | .timeout => .ok { durationMs := 10000, hasAudio := false }
  | .errorEvent => .ok { durationMs := 10000, hasAudio := false }
  | .srcException => .ok { durationMs := 10000, hasAudio := false }
  | .metadataLoaded v => .ok (detectAudioAndResolve v)

/-- The default probe timeout, from the `timeoutMs = 10000` parameter
default of `getVideoMetadataFromUrl`. -/
def videoProbeDefaultTimeoutMs : ℕ := 10000

/-! ## Drop Pipeline — audio duration resolution

Embedding of `getAudioDurationSeconds` (timeline-grid.jsx lines 40–65)
and of the duration-resolution logic of the audio branch of `handleDrop`
(lines 197–208). -/

/-- The terminating events of the `getAudioDurationSeconds` promise:
`loadedMetadata` carries `audio.duration` (`none` models the JS falsy
`NaN`/`undefined`), `errorEvent` is the media `error` handler, and
`timeout` is the 5000 ms `setTimeout` firing while `audio.duration` is
still falsy. -/
inductive AudioProbeEvent where
  | loadedMetadata (duration : Option ℚ)
  | errorEvent
  | timeout
deriving DecidableEq, Repr

/-- The timeout of `getAudioDurationSeconds`, from its
`setTimeout(..., 5000)` call. -/
def audioProbeTimeoutMs : ℕ := 5000

/-- Embedding of `getAudioDurationSeconds`: `loadedmetadata` resolves with
`audio.duration || 0`; the error handler and the timeout both reject. -/
def getAudioDurationSeconds : AudioProbeEvent → Except Unit ℚ
  | .loadedMetadata d => .ok (d.getD 0)
  | .errorEvent => .error ()
  | .timeout => .error ()

/-- Embedding of the audio-duration resolution in `handleDrop`'s audio
branch: `uploadDuration` is `uploadResult?.duration` in seconds (`some`
exactly when the `typeof === 'number'` test passes), `probed` the outcome
of awaiting `getAudioDurationSeconds`.  A server-reported duration wins;
otherwise the probed duration (in ms) is clamped below at 1000; a probe
rejection falls back to 5000 ms. -/
def resolveAudioDurationMs (uploadDuration : Option ℚ) (probed : Except Unit ℚ) : ℚ :=
  match uploadDuration with
  | some d => d * 1000
  | none =>
      match probed with
      | .ok durationSec => max 1000 (durationSec * 1000)
      | .error _ => 5000

/-! ## Drop Pipeline — video branch and track allocation

Embedding of the video branch of `handleDrop` (timeline-grid.jsx lines
223–296): probe-or-fallback duration resolution, the dedicated-row
collision rule, the track-count extensions, and the creation of the video
overlay plus its companion audio overlay. -/

/-- A placed overlay, restricted to the attributes the drop pipeline
sets. -/
structure Overlay where
  kind : String
  row : ℕ
  startTime : ℚ
  durationMs : ℚ
  hasSeparateAudio : Bool
deriving DecidableEq, Repr

/-- Result of dropping one video file. -/
structure VideoDropResult where
  video : Overlay
  companionAudio : Option Overlay
  maxRows : ℕ
deriving DecidableEq, Repr

/-- Embedding of the video branch of `handleDrop`.  `probe` is the
settled outcome of `await getVideoMetadataFromUrl(...)` (`.error` is the
`catch` path of the surrounding `try`); `uploadDuration` is
`uploadResult?.duration` in seconds; `videoRow`/`audioRow0` are the
dedicated rows reported by the store; `maxRows0` the current track count;
`lastVideoEnd` the store's last-video-end time used for end-bar
placement. -/
def videoDropStep (probe : Except Unit ProbeResult) (uploadDuration : Option ℚ)
    (videoRow audioRow0 maxRows0 : ℕ) (lastVideoEnd : ℚ) : VideoDropResult :=
  let durationMs : ℚ :=
    match probe with
    | .ok meta => meta.durationMs
    | .error _ =>
        match uploadDuration with
        | some d => d * 1000
        | none => 10000
  let hasAudio : Bool :=
    match probe with
    | .ok meta => meta.hasAudio
    | .error _ => false
  let audioRow : ℕ :=
    if audioRow0 == videoRow && hasAudio then max (videoRow + 1) maxRows0
    else audioRow0
  let maxRows1 : ℕ := if videoRow ≥ maxRows0 then videoRow + 1 else maxRows0
  let maxRows2 : ℕ := if hasAudio && decide (audioRow ≥ maxRows1) then audioRow + 1 else maxRows1
  { video :=
      { kind := "video", row := videoRow, startTime := lastVideoEnd
        durationMs := durationMs, hasSeparateAudio := hasAudio }
    companionAudio :=
      if hasAudio then
        some { kind := "audio", row := audioRow, startTime := lastVideoEnd
               durationMs := durationMs, hasSeparateAudio := false }
      else none
    maxRows := maxRows2 }

/-! ## Ghost Interaction State Machine — out-of-bounds handling

Embedding of the out-of-bounds branch shared by `handleGlobalMouseMove`
(timeline-grid.jsx lines 346–362) and `handleGlobalDragOver` (lines
377–393). -/

/-- Ghost payload of a single-element drag (fields read by the ghost
renderer). -/
structure GhostElem where
  left : ℚ
  width : ℚ
  row : ℕ
  elementType : String
deriving DecidableEq, Repr

/-- Ghost payload of a resize interaction; `canPush` marks whether the
resize may displace neighbours. -/
structure ResizeGhostElem where
  left : ℚ
  width : ℚ
  row : ℕ
  elementType : String
  canPush : Bool
deriving DecidableEq, Repr

/-- Ghost payload of a gallery or native-file drag; `isIncompatible`
flags an incompatible hovered row. -/
structure DragGhostElem where
  left : ℚ
  width : ℚ
  row : ℕ
  elementType : String
  isIncompatible : Bool
deriving DecidableEq, Repr

/-- An alignment line as rendered by `AlignmentLines`. -/
structure AlignmentLine where
  position : ℚ
  lineType : String
  snapGuide : Bool
deriving DecidableEq, Repr

/-- The session-wide `store.ghostState` record (§3 of the spec; the fields
are the ones the source reads and writes). -/
structure GhostState where
  isDragging : Bool
  ghostElement : Option GhostElem
  isResizing : Bool
  resizeGhostElement : Option ResizeGhostElem
  isMultiDragging : Bool
  multiGhostElements : List GhostElem
  isGalleryDragging : Bool
  galleryGhostElement : Option DragGhostElem
  isFileDragging : Bool
  fileGhostElement : Option DragGhostElem
  alignmentLines : List AlignmentLine
  ghostMarkerPosition : Option ℚ
deriving DecidableEq, Repr

/-- Modelled from the spec: `store.resetGhostState` lives in the mobx
store, which is not among the provided sources.  Spec §3 (GhostState
lifecycle) and §4.5 define the full reset as "all flags false, all ghost
objects null, lists emptied". -/
def resetGhostState : GhostState :=
  { isDragging := false
    ghostElement := none
    isResizing := false
    resizeGhostElement := none
    isMultiDragging := false
    multiGhostElements := []
    isGalleryDragging := false
    galleryGhostElement := none
    isFileDragging := false
    fileGhostElement := none
    alignmentLines := []
    ghostMarkerPosition := none }

/-- Embedding of the `!isOverGrid` branch of `handleGlobalMouseMove` /
`handleGlobalDragOver`: a full reset when a file or gallery drag is
active, otherwise payload-only clearing for single and multi drags. -/
def handleOutOfBounds (s : GhostState) : GhostState :=
  if s.isFileDragging || s.isGalleryDragging then resetGhostState
  else
    let s1 := if s.isDragging then { s with ghostElement := none } else s
    if s1.isMultiDragging then { s1 with multiGhostElements := [] } else s1

/-! ## Theorems -/

/-- Evaluation lemma for `Rat.floor` at concrete rationals, via the
`FloorRing` characterisation. -/
lemma ratFloor_eval (q : ℚ) (z : ℤ) (h1 : (z : ℚ) ≤ q) (h2 : q < z + 1) :
    Rat.floor q = z := by
  have h : Rat.floor q = ⌊q⌋ := rfl
  rw [h, Int.floor_eq_iff]
  exact ⟨h1, h2⟩

/-- Claim C1 counterexample: at `maxTimeMs = 60000`, `fps = 30`,
`scale = 1` the generator takes the `else` bracket (60-second interval),
so the markers are at 0 s (position 0) and 60 s (position 100) only —
there is no marker at 30 s with position 50, contrary to the claim. -/
theorem C1_scale_one_counterexample :
    ((rulerMarkers 60000 30 1).map fun m => (m.time, m.position)) = [(0, 0), (60, 100)] := by
  have h1 : Rat.floor (1 : ℚ) = 1 := by
    apply ratFloor_eval <;> norm_num
  simp only [rulerMarkers, rulerInterval]
  norm_num [h1, List.range_succ]

/-- Claim C1 (amended): for `maxTimeMs = 60000`, `fps = 30`, the Ruler
Marker Generator produces markers at 0 s, 30 s and 60 s with positions 0,
50 and 100 percent at `scale = 2` (the `>1` zoom bracket with its
30-second interval); at `scale = 1` it takes the `else` bracket
(60-second interval) and produces markers at 0 s and 60 s with positions
0 and 100 only. -/
theorem C1_marker_times_positions :
    ((rulerMarkers 60000 30 2).map fun m => (m.time, m.position))
        = [(0, 0), (30, 50), (60, 100)] ∧
    ((rulerMarkers 60000 30 1).map fun m => (m.time, m.position))
        = [(0, 0), (60, 100)] := by
  constructor
  · have h1 : Rat.floor (2 : ℚ) = 2 := by
      apply ratFloor_eval <;> norm_num
    have h2 : Int.toNat 2 = 2 := rfl
    simp only [rulerMarkers, rulerInterval]
    norm_num [h1, h2, List.range_succ]
  · have h1 : Rat.floor (1 : ℚ) = 1 := by
      apply ratFloor_eval <;> norm_num
    simp only [rulerMarkers, rulerInterval]
    norm_num [h1, List.range_succ]

/-- Claim C2 counterexample: `areTypesCompatible` tests the `text` rule
first, so pairing `animation` with `text` (in either order) yields
`false`, contrary to the claim that `compatible(animation, X)` is true
for every kind `X` including `text`. -/
theorem C2_animation_text_counterexample :
    areTypesCompatible "animation" "text" = false ∧
    areTypesCompatible "text" "animation" = false := by decide

/-- Claim C2 (amended): `animation` is compatible with every kind in the
kind set except `text`: `compatible(animation, X) = true` exactly when
`X ≠ text`, in both argument orders. -/
theorem C2_animation_compatibility :
    ∀ X ∈ allKinds,
      areTypesCompatible "animation" X = (X != "text") ∧
      areTypesCompatible X "animation" = (X != "text") := by
  intro X hX
  fin_cases hX <;> decide

/-- Witness for `C2_animation_compatibility` at `X = "video"`. -/
theorem C2_animation_compatibility_witness :
    areTypesCompatible "animation" "video" = ("video" != "text") ∧
    areTypesCompatible "video" "animation" = ("video" != "text") :=
  C2_animation_compatibility "video" (by decide)

/-- Claim C5: the full compatibility table over the kind set — with
neither side `text` and not both image-family, distinct kinds among
`video`, `audio`, `image`/`imageUrl` are incompatible; `video` and
`audio` are incompatible with themselves; image-family pairs are
compatible; `text` is compatible with `text` and with nothing else. -/
theorem C5_compatibility_table :
    (∀ A ∈ nonAnimKinds, ∀ B ∈ nonAnimKinds,
      A ≠ "text" → B ≠ "text" →
      ¬(imageFamily A = true ∧ imageFamily B = true) → A ≠ B →
      areTypesCompatible A B = false) ∧
    areTypesCompatible "video" "video" = false ∧
    areTypesCompatible "audio" "audio" = false ∧
    (∀ A ∈ allKinds, ∀ B ∈ allKinds,
      imageFamily A = true → imageFamily B = true →
      areTypesCompatible A B = true) ∧
    areTypesCompatible "text" "text" = true ∧
    (∀ X ∈ allKinds, X ≠ "text" →
      areTypesCompatible "text" X = false ∧ areTypesCompatible X "text" = false) := by
  refine ⟨?_, by decide, by decide, ?_, by decide, ?_⟩
  · intro A hA B hB
    fin_cases hA <;> fin_cases hB <;> decide
  · intro A hA B hB
    fin_cases hA <;> fin_cases hB <;> decide
  · intro X hX
    fin_cases hX <;> decide

/-- Witness for `C5_compatibility_table`: its first clause applied at
`A = "video"`, `B = "audio"`. -/
theorem C5_compatibility_table_witness :
    areTypesCompatible "video" "audio" = false :=
  C5_compatibility_table.1 "video" (by decide) "audio" (by decide)
    (by decide) (by decide) (by decide) (by decide)

/-- Claim C10: during a file drag over the timeline, any dragged item
whose MIME type starts with neither `audio/` nor `video/` — and likewise
an absent MIME type — is inferred as `imageUrl`, so its row-incompatibility
flag is computed exactly as for an image MIME such as `image/png`. -/
theorem C10_default_image_kind (t : String)
    (ha : jsStartsWith t "audio/" = false)
    (hv : jsStartsWith t "video/" = false) :
    inferFileDragKind (some t) = "imageUrl" ∧
    inferFileDragKind none = "imageUrl" ∧
    (∀ rowType, fileDragIncompatible rowType (some t)
        = fileDragIncompatible rowType (some "image/png")) := by
  refine ⟨?_, rfl, ?_⟩
  · simp [inferFileDragKind, ha, hv]
  · intro rowType
    cases rowType with
    | none => rfl
    | some rt =>
        simp only [fileDragIncompatible, inferFileDragKind, ha, hv]
        norm_num
        congr 1

/-- Witness for `C10_default_image_kind` at the MIME type `text/plain`
and the hovered-row kind `video`. -/
theorem C10_default_image_kind_witness :
    inferFileDragKind (some "text/plain") = "imageUrl" ∧
    fileDragIncompatible (some "video") (some "text/plain")
      = fileDragIncompatible (some "video") (some "image/png") :=
  ⟨(C10_default_image_kind "text/plain" (by decide) (by decide)).1,
   (C10_default_image_kind "text/plain" (by decide) (by decide)).2.2 (some "video")⟩

/-- Claim C3: in the video branch of the drop pipeline, when the probe
reports an audio track and the dedicated audio row coincides with the
dedicated video row, the companion audio is placed on
`max(videoRow + 1, current track count)`, which differs from the video's
row, and the resulting track count is at least the larger final row index
plus one. -/
theorem C3_collision_resolution (d : ℚ) (uploadDuration : Option ℚ)
    (videoRow audioRow0 maxRows0 : ℕ) (lastVideoEnd : ℚ)
    (hcollide : audioRow0 = videoRow) :
    ∃ a, (videoDropStep (.ok ⟨d, true⟩) uploadDuration videoRow audioRow0 maxRows0
            lastVideoEnd).companionAudio = some a ∧
      a.row = max (videoRow + 1) maxRows0 ∧
      a.row ≠ (videoDropStep (.ok ⟨d, true⟩) uploadDuration videoRow audioRow0 maxRows0
            lastVideoEnd).video.row ∧
      (videoDropStep (.ok ⟨d, true⟩) uploadDuration videoRow audioRow0 maxRows0
            lastVideoEnd).maxRows ≥
        max (videoDropStep (.ok ⟨d, true⟩) uploadDuration videoRow audioRow0 maxRows0
            lastVideoEnd).video.row a.row + 1 := by
  subst hcollide
  refine ⟨{ kind := "audio", row := max (audioRow0 + 1) maxRows0, startTime := lastVideoEnd,
            durationMs := d, hasSeparateAudio := false }, ?_, rfl, ?_, ?_⟩
  · simp [videoDropStep]
  · simp only [videoDropStep]
    omega
  · simp only [videoDropStep, beq_self_eq_true, Bool.true_and, decide_eq_true_eq]
    split_ifs <;> simp_all

/-- Witness for `C3_collision_resolution` at duration 5000 ms, dedicated
rows both 0, one existing track, drop at time 0. -/
theorem C3_collision_resolution_witness :
    ∃ a, (videoDropStep (.ok ⟨5000, true⟩) none 0 0 1 0).companionAudio = some a ∧
      a.row = max (0 + 1) 1 ∧
      a.row ≠ (videoDropStep (.ok ⟨5000, true⟩) none 0 0 1 0).video.row ∧
      (videoDropStep (.ok ⟨5000, true⟩) none 0 0 1 0).maxRows ≥
        max (videoDropStep (.ok ⟨5000, true⟩) none 0 0 1 0).video.row a.row + 1 :=
  C3_collision_resolution 5000 none 0 0 1 0 rfl

/-- Claim C4: whenever the probe reports `hasAudio = true` for a dropped
video, the companion audio overlay is created with exactly the video
overlay's start time and duration. -/
theorem C4_companion_audio_aligned (meta : ProbeResult) (hmeta : meta.hasAudio = true)
    (uploadDuration : Option ℚ) (videoRow audioRow0 maxRows0 : ℕ) (lastVideoEnd : ℚ) :
    ∃ a, (videoDropStep (.ok meta) uploadDuration videoRow audioRow0 maxRows0
            lastVideoEnd).companionAudio = some a ∧
      a.startTime = (videoDropStep (.ok meta) uploadDuration videoRow audioRow0 maxRows0
            lastVideoEnd).video.startTime ∧
      a.durationMs = (videoDropStep (.ok meta) uploadDuration videoRow audioRow0 maxRows0
            lastVideoEnd).video.durationMs := by
  simp only [videoDropStep, hmeta]
  exact ⟨_, rfl, rfl, rfl⟩

/-- Witness for `C4_companion_audio_aligned` with a probe reporting 5000
ms and audio present. -/
theorem C4_companion_audio_aligned_witness :
    ∃ a, (videoDropStep (.ok ⟨5000, true⟩) none 0 1 2 0).companionAudio = some a ∧
      a.startTime = (videoDropStep (.ok ⟨5000, true⟩) none 0 1 2 0).video.startTime ∧
      a.durationMs = (videoDropStep (.ok ⟨5000, true⟩) none 0 1 2 0).video.durationMs :=
  C4_companion_audio_aligned ⟨5000, true⟩ rfl none 0 1 2 0

/-- Claim C6: the Media Metadata Probe never rejects — every terminating
path of its promise resolves — and each failure path (unset url, media
error event, synchronous exception, timeout expiry) resolves with exactly
`{durationMs: 10000, hasAudio: false}`. -/
theorem C6_probe_never_rejects :
    (∀ e, ∃ r, getVideoMetadataFromUrl e = .ok r) ∧
    (∀ e, ProbeEvent.isFailure e = true →
      getVideoMetadataFromUrl e = .ok { durationMs := 10000, hasAudio := false }) := by
  constructor
  · intro e
    cases e <;> exact ⟨_, rfl⟩
  · intro e he
    cases e <;> simp_all [getVideoMetadataFromUrl, ProbeEvent.isFailure]

/-- Witness for `C6_probe_never_rejects` at the timeout event. -/
theorem C6_probe_never_rejects_witness :
    getVideoMetadataFromUrl .timeout = .ok { durationMs := 10000, hasAudio := false } :=
  C6_probe_never_rejects.2 .timeout rfl

/-- Claim C7: when `detectAudioAndResolve` runs with a valid positive
duration but with none of the audio-presence signals positive (no
`mozHasAudio`, no positive `webkitAudioDecodedByteCount`, no non-empty
`audioTracks`), it resolves with `hasAudio = true` — the opposite of the
failure/timeout path, which resolves with `hasAudio = false`. -/
theorem C7_positive_audio_bias (v : VideoElemState)
    (hdur : 0 < v.duration)
    (hmoz : v.mozHasAudio = false)
    (hwebkit : ∀ n, v.webkitAudioDecodedByteCount = some n → n ≤ 0)
    (htracks : ∀ n, v.audioTracksLength = some n → n = 0) :
    (detectAudioAndResolve v).hasAudio = true ∧
    getVideoMetadataFromUrl (.metadataLoaded v) = .ok (detectAudioAndResolve v) ∧
    getVideoMetadataFromUrl .timeout = .ok { durationMs := 10000, hasAudio := false } := by
  refine ⟨?_, rfl, rfl⟩
  simp only [detectAudioAndResolve, hmoz]
  cases hw : v.webkitAudioDecodedByteCount with
  | none =>
      cases ht : v.audioTracksLength with
      | none => simp [hdur]
      | some n =>
          have hn := htracks n ht
          subst hn
          simp [hdur]
  | some n =>
      have hn := hwebkit n hw
      have hn' : ¬(n > 0) := by omega
      cases ht : v.audioTracksLength with
      | none => simp [hn', hdur]
      | some m =>
          have hm := htracks m ht
          subst hm
          simp [hn', hdur]

/-- Witness for `C7_positive_audio_bias` at a 5-second video with every
signal negative. -/
theorem C7_positive_audio_bias_witness :
    (detectAudioAndResolve
        { duration := 5, mozHasAudio := false, webkitAudioDecodedByteCount := none,
          audioTracksLength := none, readyState := 2 }).hasAudio = true :=
  (C7_positive_audio_bias
    { duration := 5, mozHasAudio := false, webkitAudioDecodedByteCount := none,
      audioTracksLength := none, readyState := 2 }
    (by norm_num) rfl (fun n h => nomatch h) (fun n h => nomatch h)).1

/-- Claim C8: the drop pipeline resolves a dropped audio file's duration
by preferring a numeric server-reported duration (converted to ms); else
it probes the file — under `getAudioDurationSeconds`'s 5000 ms timeout —
and clamps the probed duration below at 1000 ms; on probe rejection
(error or timeout) it uses 5000 ms. -/
theorem C8_audio_duration_resolution :
    (∀ (d : ℚ) (probed : Except Unit ℚ),
      resolveAudioDurationMs (some d) probed = d * 1000) ∧
    (∀ d : Option ℚ,
      resolveAudioDurationMs none (getAudioDurationSeconds (.loadedMetadata d))
        = max 1000 (d.getD 0 * 1000)) ∧
    resolveAudioDurationMs none (getAudioDurationSeconds .errorEvent) = 5000 ∧
    resolveAudioDurationMs none (getAudioDurationSeconds .timeout) = 5000 ∧
    audioProbeTimeoutMs = 5000 := by
  exact ⟨fun d probed => rfl, fun d => rfl, rfl, rfl, rfl⟩

/-- Claim C9: when the pointer leaves the timeline's bounds, an active
file or gallery drag triggers a full reset of the ghost state (all flags
false, all payloads cleared); otherwise a single or multi drag only has
its ghost payload cleared (`ghostElement := none`,
`multiGhostElements := []`) while all mode flags — and the untouched
payloads — are left unchanged. -/
theorem C9_out_of_bounds_reset (s : GhostState) :
    ((s.isFileDragging = true ∨ s.isGalleryDragging = true) →
      handleOutOfBounds s = resetGhostState ∧
      (handleOutOfBounds s).isDragging = false ∧
      (handleOutOfBounds s).isResizing = false ∧
      (handleOutOfBounds s).isMultiDragging = false ∧
      (handleOutOfBounds s).isGalleryDragging = false ∧
      (handleOutOfBounds s).isFileDragging = false ∧
      (handleOutOfBounds s).ghostElement = none ∧
      (handleOutOfBounds s).resizeGhostElement = none ∧
      (handleOutOfBounds s).multiGhostElements = [] ∧
      (handleOutOfBounds s).galleryGhostElement = none ∧
      (handleOutOfBounds s).fileGhostElement = none) ∧
    (s.isFileDragging = false → s.isGalleryDragging = false →
      (handleOutOfBounds s).isDragging = s.isDragging ∧
      (handleOutOfBounds s).isResizing = s.isResizing ∧
      (handleOutOfBounds s).isMultiDragging = s.isMultiDragging ∧
      (handleOutOfBounds s).isGalleryDragging = s.isGalleryDragging ∧
      (handleOutOfBounds s).isFileDragging = s.isFileDragging ∧
      (handleOutOfBounds s).resizeGhostElement = s.resizeGhostElement ∧
      (handleOutOfBounds s).galleryGhostElement = s.galleryGhostElement ∧
      (handleOutOfBounds s).fileGhostElement = s.fileGhostElement ∧
      (s.isDragging = true → (handleOutOfBounds s).ghostElement = none) ∧
      (s.isDragging = false → (handleOutOfBounds s).ghostElement = s.ghostElement) ∧
      (s.isMultiDragging = true → (handleOutOfBounds s).multiGhostElements = []) ∧
      (s.isMultiDragging = false →
        (handleOutOfBounds s).multiGhostElements = s.multiGhostElements)) := by
  constructor
  · intro h
    have hfg : (s.isFileDragging || s.isGalleryDragging) = true := by
      rcases h with h | h <;> simp [h]
    simp [handleOutOfBounds, hfg, resetGhostState]
  · intro hf hg
    have hfg : (s.isFileDragging || s.isGalleryDragging) = false := by simp [hf, hg]
    cases hd : s.isDragging <;> cases hm : s.isMultiDragging <;>
      simp_all [handleOutOfBounds]

/-- Witness for `C9_out_of_bounds_reset`: a state with an active file
drag fully resets, and a state with only an active element drag keeps its
`isDragging` flag while its ghost payload clears. -/
theorem C9_out_of_bounds_reset_witness :
    handleOutOfBounds
        { isDragging := false, ghostElement := none, isResizing := false,
          resizeGhostElement := none, isMultiDragging := false, multiGhostElements := [],
          isGalleryDragging := false, galleryGhostElement := none, isFileDragging := true,
          fileGhostElement := some ⟨0, 10, 0, "video", false⟩, alignmentLines := [],
          ghostMarkerPosition := none } = resetGhostState ∧
    (handleOutOfBounds
        { isDragging := true, ghostElement := some ⟨0, 10, 0, "video"⟩, isResizing := false,
          resizeGhostElement := none, isMultiDragging := false, multiGhostElements := [],
          isGalleryDragging := false, galleryGhostElement := none, isFileDragging := false,
          fileGhostElement := none, alignmentLines := [],
          ghostMarkerPosition := none }).isDragging = true ∧
    (handleOutOfBounds
        { isDragging := true, ghostElement := some ⟨0, 10, 0, "video"⟩, isResizing := false,
          resizeGhostElement := none, isMultiDragging := false, multiGhostElements := [],
          isGalleryDragging := false, galleryGhostElement := none, isFileDragging := false,
          fileGhostElement := none, alignmentLines := [],
          ghostMarkerPosition := none }).ghostElement = none :=
  ⟨((C9_out_of_bounds_reset _).1 (Or.inl rfl)).1,
   by
    refine ⟨((C9_out_of_bounds_reset _).2 rfl rfl).1.trans rfl, ?_⟩
    exact ((C9_out_of_bounds_reset _).2 rfl rfl).2.2.2.2.2.2.2.2.1 rfl⟩
